import Mathlib

/-!
Shallow embedding of the OpenBench execution-based verification core:
the CRUXEval scorer (src/openbench/scorers/cruxeval.py) and the MBPP
scorer (src/openbench/scorers/mbpp.py).  Python strings are modelled as
`List Char`; Python `None` for an optional string is `Option.none`.
The sandboxed executor is modelled as a parameter (`ExecBehavior`):
either the child process returns an `ExecResult`, or the `exec` call
raises (a timeout or another exception), exactly the two situations the
scorers distinguish in their `try/except` blocks.
-/

set_option maxRecDepth 100000

namespace OpenBench

/-- Python strings are modelled as lists of characters. -/
abbrev L := List Char

/-- Converts a Lean string literal to the character-list model. -/
def toL (s : String) : L := s.data

/-- Whitespace test matching Python `str.strip` / regex `\s` on the ASCII
range (space, tab, newline, carriage return, vertical tab, form feed). -/
def isPySpace (c : Char) : Bool :=
  c = ' ' || c = '\t' || c = '\n' || c = '\r' || c = '\x0b' || c = '\x0c'

/-- Python `s.strip()`: drop leading and trailing whitespace. -/
def pyStrip (s : L) : L :=
  ((s.dropWhile isPySpace).reverse.dropWhile isPySpace).reverse

/-- Python `s.rstrip()`: drop trailing whitespace. -/
def pyRStrip (s : L) : L :=
  (s.reverse.dropWhile isPySpace).reverse

/-- Boolean test that `s` starts with `t` (Python `s.startswith(t)`). -/
def startsWithL : L → L → Bool
  | _, [] => true
  | [], _ :: _ => false
  | c :: cs, d :: ds => c == d && startsWithL cs ds

/-- Python `s.find(t)`: index of the leftmost occurrence of `t` in `s`,
`none` when there is no occurrence (Python returns -1). -/
def pyFind : L → L → Option Nat
  | [], t => if startsWithL [] t then some 0 else none
  | c :: cs, t =>
    if startsWithL (c :: cs) t then some 0
    else (pyFind cs t).map (· + 1)

/-- Python `s.find(t, start)`: leftmost occurrence at index `start` or later. -/
def pyFindFrom (s t : L) (start : Nat) : Option Nat :=
  (pyFind (s.drop start) t).map (· + start)

/-- Python `t in s` (substring containment). -/
def pyContains (s t : L) : Bool :=
  (pyFind s t).isSome

/-- Python slice `s[a:b]`. -/
def listSlice (s : L) (a b : Nat) : L :=
  (s.drop a).take (b - a)

/-- Case-insensitive `pyFind` (both sides lowered), used for the
`re.IGNORECASE` searches of the MBPP extractor. -/
def pyFindCI (s t : L) : Option Nat :=
  pyFind (s.map Char.toLower) (t.map Char.toLower)

/-- Case-insensitive `pyFindFrom`. -/
def pyFindCIFrom (s t : L) (start : Nat) : Option Nat :=
  (pyFindCI (s.drop start) t).map (· + start)

/-- Case-insensitive `startsWithL`. -/
def ciStartsWith (s t : L) : Bool :=
  startsWithL (s.map Char.toLower) (t.map Char.toLower)

/-- Line-break characters recognised by Python `str.splitlines`. -/
def isLineBreak (c : Char) : Bool :=
  c = '\n' || c = '\r' || c = '\x0b' || c = '\x0c' || c = '\x1c' ||
  c = '\x1d' || c = '\x1e' || c = '\x85' || c = '\u2028' || c = '\u2029'

/-- Worker for `pySplitlines`; `acc` holds the current line reversed.
Splits at every line break, `\r\n` counting as a single break; the
segment after the last break is always emitted (possibly empty). -/
def splitlinesGo : L → L → List L
  | [], acc => [acc.reverse]
  | '\r' :: '\n' :: rest, acc => acc.reverse :: splitlinesGo rest []
  | c :: cs, acc =>
    if isLineBreak c then acc.reverse :: splitlinesGo cs []
    else splitlinesGo cs (c :: acc)

/-- Python `s.splitlines()`: as `splitlinesGo`, except that a terminal
line break produces no trailing empty line. -/
def pySplitlines (s : L) : List L :=
  match s with
  | [] => []
  | _ :: _ =>
    let parts := splitlinesGo s []
    if parts.getLast? = some [] then parts.dropLast else parts

/-- Worker for `pySplit`, with fuel for termination; the fuel passed by
`pySplit` always suffices because each found separator is non-empty. -/
def pySplitGo : Nat → L → L → List L
  | 0, s, _ => [s]
  | Nat.succ fuel, s, t =>
    match pyFind s t with
    | none => [s]
    | some i => s.take i :: pySplitGo fuel (s.drop (i + t.length)) t

/-- Python `s.split(t)` for a non-empty separator `t`. -/
def pySplit (s t : L) : List L :=
  pySplitGo (s.length + 1) s t

/-! Candidate extraction of the CRUXEval scorer
(`extract_candidate` and its helpers in scorers/cruxeval.py). -/

/-- Tag constant `ANSWER_OPEN` of scorers/cruxeval.py. -/
def ANSWER_OPEN : L := toL "[ANSWER]"

/-- Tag constant `ANSWER_CLOSE` of scorers/cruxeval.py. -/
def ANSWER_CLOSE : L := toL "[/ANSWER]"

/-- Helper `_between` of scorers/cruxeval.py: the stripped text between
the first occurrence of `opn` and the first occurrence of `cls` after
it, or `none` when either tag is missing. -/
def between (s opn cls : L) : Option L :=
  match pyFind s opn with
  | none => none
  | some i =>
    match pyFindFrom s cls (i + opn.length) with
    | none => none
    | some j => some (pyStrip (listSlice s (i + opn.length) j))

/-- Last non-empty line selection of `extract_candidate` (lines 144-146
of scorers/cruxeval.py): strip every line, keep the non-empty ones,
take the last, or the empty string when none remain. -/
def lastNonEmptyLine (text : L) : L :=
  let lines := ((pySplitlines text).map pyStrip).filter (fun ln => ln ≠ [])
  match lines.getLast? with
  | some l => l
  | none => []

/-- Index of the last close parenthesis in a list (worker). -/
def lastParenGo : L → Nat → Option Nat → Option Nat
  | [], _, acc => acc
  | c :: cs, i, acc => lastParenGo cs (i + 1) (if c = ')' then some i else acc)

/-- Index of the last close parenthesis in a list. -/
def lastParenIdx (l : L) : Option Nat := lastParenGo l 0 none

/-- Attempt of the regex `f\s*\((.*)\)` at one position: `cs` is the text
after a letter f.  The regex engine skips the whitespace run, requires an
open parenthesis, and the greedy dot (which does not match a newline)
makes group 1 end at the last close parenthesis of the current line. -/
def fTryMatch (cs : L) : Option L :=
  match cs.dropWhile isPySpace with
  | '(' :: rest =>
    let seg := rest.takeWhile (fun c => c ≠ '\n')
    (lastParenIdx seg).map (fun k => seg.take k)
  | _ => none

/-- Scan of `re.search(r"f\s*\((.*)\)", text)`: try each start position
from the left and return group 1 of the first successful match. -/
def fCallScan : L → Option L
  | [] => none
  | c :: cs =>
    match (if c = 'f' then fTryMatch cs else none) with
    | some g => some g
    | none => fCallScan cs

/-- Helper `_first_f_call` of scorers/cruxeval.py.  Note that the source
builds `"f(" + m.group(1).strip()` and never appends the close
parenthesis that the regex consumed. -/
def firstFCall (text : L) : Option L :=
  (fCallScan text).map (fun g => toL "f(" ++ pyStrip g)

/-- Header ends accepted by the fence regex of `_strip_first_fenced_block`
(pattern starting with three backticks, then optional python, then
whitespace ending in a newline), in the backtracking preference order of
the engine: for a greedy whitespace star, later newlines first. -/
def nlPosGo : L → Nat → List Nat
  | [], _ => []
  | c :: cs, i =>
    if isPySpace c then
      (if c = '\n' then [i] else []) ++ nlPosGo cs (i + 1)
    else []

/-- Candidate group starts for `_strip_first_fenced_block`, preferred
order first (descending positions of a newline in the whitespace run
after the fence header). -/
def fenceHeaderEnds (s : L) : List Nat :=
  if startsWithL s (toL "```") then
    let base : Nat := if ciStartsWith (s.drop 3) (toL "python") then 9 else 3
    ((nlPosGo (s.drop base) 0).reverse).map (fun p => base + p + 1)
  else []

/-- Helper `_strip_first_fenced_block` of scorers/cruxeval.py.  The
regex is anchored at both ends, so a match requires the text to end in a
newline followed by three backticks, with group 1 ending there; the
callers always pass pre-stripped text, so the end anchor before a final
trailing newline cannot arise. -/
def stripFence (s : L) : L :=
  let n := s.length
  if startsWithL (s.drop (n - 4)) (toL "\n```") && decide (4 ≤ n) then
    match (fenceHeaderEnds s).find? (fun h => h + 4 ≤ n) with
    | some h => pyStrip (listSlice s h (n - 4))
    | none => s
  else s

/-- Predicate used by the spec for a full assertion statement: the text
starts with the word assert and contains an equality operator. -/
def isFullAssertion (s : L) : Bool :=
  startsWithL s (toL "assert ") && pyContains s (toL "==")

/-- Non-assert recovery of `extract_candidate` (lines 174-184 of
scorers/cruxeval.py).  In output mode, `s.split("==", 1)[1].strip()` is
the stripped text after the first equality operator when one occurs,
else the whole string; otherwise the first f-call when the scan finds
one (the scan never yields an empty, hence falsy, string), else the
whole string. -/
def fallbackSelect (s mode : L) : Option L :=
  if mode = toL "output" then
    match pyFind s (toL "==") with
    | some i => some (pyStrip (s.drop (i + 2)))
    | none => some s
  else
    match firstFCall s with
    | some call => some call
    | none => some s

/-- Assert-splitting step of `extract_candidate` (lines 157-184 of
scorers/cruxeval.py), applied to the normalized text `s`.  A Python
`None` result (input mode, no f-call anywhere) is `Option.none`. -/
def selectCandidate (s mode : L) : Option L :=
  if startsWithL s (toL "assert ") then
    match (pySplit (s.drop 7) (toL "==")).map pyStrip with
    | lhs :: rhs :: _ =>
      if mode = toL "output" then some rhs
      else if pyContains lhs (toL "f(") then some lhs
      else firstFCall s
    | _ => fallbackSelect s mode
  else fallbackSelect s mode

/-- Normalization applied to the selected span or line: strip, remove a
fenced block wrapper, then split or recover (lines 149-184 of
scorers/cruxeval.py). -/
def normalizeCandidate (inside mode : L) : Option L :=
  selectCandidate (stripFence (pyStrip inside)) mode

/-- Function `extract_candidate` of scorers/cruxeval.py.  The `variant`
parameter is accepted and ignored, as in the source. -/
def extractCandidate (completion mode variant : L) : Option L :=
  let text := pyStrip completion
  let inside :=
    match between text ANSWER_OPEN ANSWER_CLOSE with
    | some x => x
    | none => lastNonEmptyLine text
  normalizeCandidate inside mode

/-! Verdict and executor model shared by both scorers. -/

/-- Metadata values stored in a Score (Python dict values). -/
inductive MetaVal
  | str (s : L)
  | nat (n : Nat)
  | bool (b : Bool)
  | raw (tag : Nat)
deriving DecidableEq

/-- Model of `inspect_ai.scorer.Score`: `value` is `true` for CORRECT and
`false` for INCORRECT; `metadata` is `none` when the keyword is not
passed (the Python default). -/
structure Score where
  value : Bool
  answer : L
  explanation : L
  metadata : Option (List (L × MetaVal))
deriving DecidableEq

/-- Model of `inspect_ai.util.ExecResult`. -/
structure ExecResult where
  success : Bool
  returncode : Nat
  stdout : L
  stderr : L
deriving DecidableEq

/-- Behaviour of the `sandbox().exec` call: the child process produced a
result, or the call raised a `TimeoutError`, or it raised some other
exception (with class name and message). -/
inductive ExecBehavior
  | returns (r : ExecResult)
  | timeoutErr
  | otherErr (name msg : L)
deriving DecidableEq

/-- Exception recovery of the CRUXEval scorer (lines 90-96 of
scorers/cruxeval.py): a bare `except:` maps every exception, timeouts
included, to `ExecResult(False, 1, "", "Error arose.")`. -/
def cruxevalExecOutcome : ExecBehavior → ExecResult
  | .returns r => r
  | _ => ⟨false, 1, [], toL "Error arose."⟩

/-- Exception recovery of the MBPP scorer (lines 138-146 of
scorers/mbpp.py): a `TimeoutError` becomes the fixed message
`Verification timed out.`; any other exception keeps its class name and
message. -/
def mbppExecOutcome : ExecBehavior → ExecResult
  | .returns r => r
  | .timeoutErr => ⟨false, 1, [], toL "Verification timed out."⟩
  | .otherErr name msg => ⟨false, 1, [], name ++ toL ": " ++ msg⟩

/-! CRUXEval scorer (`cruxeval_verify.score` in scorers/cruxeval.py). -/

/-- Note used by the input-mode structural gate. -/
def noteMissingCall : L := toL "Missing f(…) call in input-prediction."

/-- Note used by the output-mode structural gate. -/
def noteLiteralRHS : L := toL "Output mode expects a literal RHS, not a function call."

/-- Helper `_fmt_expl` of scorers/cruxeval.py.  The source computes the
shown assert left side with a conditional expression whose two branches
for a truthy `ref_input` are identical, both yielding `f(<ref_input>)`;
the reference output is shown only when `ref_input` is empty. -/
def fmtExpl (code refIn refOut candidate note : L) : L :=
  let shown :=
    if (!refIn.isEmpty) && startsWithL note (toL "Assertion passed") then
      toL "f(" ++ refIn ++ toL ")"
    else if !refIn.isEmpty then toL "f(" ++ refIn ++ toL ")"
    else refOut
  toL "The following verification code was executed:\n\n" ++
  toL "```python\n" ++ code ++ toL "\n" ++
  toL "assert " ++ shown ++ toL " == " ++ candidate ++
  toL "\n```" ++ toL "\n\n" ++ note

/-- Helper `_incorrect` of scorers/cruxeval.py: an INCORRECT Score with
an empty answer and no metadata. -/
def incorrectScore (explanation : L) : Score :=
  ⟨false, [], explanation, none⟩

/-- Verification program assembled by `cruxeval_verify.score` (lines
73-87 of scorers/cruxeval.py): `"".join([code, "\n", assert-line, "\n"])`
with the expected side `f(<ref_input>)` in output mode and the reference
output literal in input mode. -/
def buildVerify (mode code refIn refOut candidate : L) : L :=
  let expected := if mode = toL "output" then toL "f(" ++ refIn ++ toL ")" else refOut
  code ++ toL "\n" ++ toL "assert " ++ expected ++ toL " == " ++ candidate ++ toL "\n"

/-- Pre-execution part of `cruxeval_verify.score` (lines 53-87) given an
already extracted string candidate: either an early INCORRECT Score
(structural rejection or unknown mode, the executor is not invoked), or
the assembled verification program handed to the executor. -/
def cruxevalPre (mode code refIn refOut candidate : L) : Sum Score L :=
  if mode = toL "input" then
    if pyContains candidate (toL "f(") then
      Sum.inr (buildVerify mode code refIn refOut candidate)
    else
      Sum.inl (incorrectScore (fmtExpl code refIn refOut candidate noteMissingCall))
  else if mode = toL "output" then
    if pyContains candidate (toL "f(" ++ refIn ++ toL ")") then
      Sum.inl (incorrectScore (fmtExpl code refIn refOut candidate noteLiteralRHS))
    else
      Sum.inr (buildVerify mode code refIn refOut candidate)
  else
    Sum.inl (incorrectScore (toL "Unknown mode; expected \x27input\x27 or \x27output\x27."))

/-- Post-execution part of `cruxeval_verify.score` (lines 98-113): maps
the executor result to the final Score.  On failure the note is
`"Assertion failed.\n\n" + stderr`, stripped. -/
def cruxevalPost (code refIn refOut candidate : L) (result : ExecResult) : Score :=
  if result.success then
    ⟨true, candidate, fmtExpl code refIn refOut candidate (toL "Assertion passed."), none⟩
  else
    incorrectScore
      (fmtExpl code refIn refOut candidate
        (pyStrip (toL "Assertion failed.\n\n" ++ result.stderr)))

/-- Full `cruxeval_verify.score` for a string candidate: the structural
gates, then (when they pass) one executor invocation whose behaviour is
the parameter `b`. -/
def cruxevalScoreWithCandidate (mode code refIn refOut candidate : L)
    (b : ExecBehavior) : Score :=
  match cruxevalPre mode code refIn refOut candidate with
  | Sum.inl s => s
  | Sum.inr _ => cruxevalPost code refIn refOut candidate (cruxevalExecOutcome b)

/-- Whole CRUXEval scoring pipeline from the raw completion.  When
`extract_candidate` returns Python `None`, the membership tests
`"f(" not in candidate` (input mode) and `... in candidate` (output
mode) raise a `TypeError`, which nothing in the scorer catches; this is
modelled as `Except.error`.  The unknown-mode branch returns before
touching the candidate. -/
def cruxevalScore (mode variant code refIn refOut completion : L)
    (b : ExecBehavior) : Except Unit Score :=
  match extractCandidate completion mode variant with
  | some candidate => Except.ok (cruxevalScoreWithCandidate mode code refIn refOut candidate b)
  | none =>
    if mode = toL "input" ∨ mode = toL "output" then Except.error ()
    else Except.ok (incorrectScore (toL "Unknown mode; expected \x27input\x27 or \x27output\x27."))

/-! MBPP scorer (scorers/mbpp.py). -/

/-- Search of `_BEGIN_DONE_RE` (`\[BEGIN\]([\s\S]*?)\[DONE\]`, ignoring
case): the group runs from the first open tag to the first close tag
after it.  When the leftmost open tag has no close tag after it, no
later open tag can have one either, so the whole search fails. -/
def beginDoneSearch (s : L) : Option L :=
  match pyFindCI s (toL "[begin]") with
  | none => none
  | some i =>
    match pyFindCIFrom s (toL "[done]") (i + 7) with
    | none => none
    | some j => some (listSlice s (i + 7) j)

/-- Attempt of the fenced-block regex of scorers/mbpp.py at one start
position, `t` being the text after the three opening backticks: the
optional language tag branches are tried in order (python, then py,
then empty; when the longer tag matches, the shorter branches can only
be reached if no close fence exists at all, in which case they fail
too), the greedy whitespace star runs to the end of the whitespace
(a close fence cannot begin inside it), and the lazy group ends at the
first close fence. -/
def mbppFenceTry (t : L) : Option L :=
  let afterTag :=
    if ciStartsWith t (toL "python") then t.drop 6
    else if ciStartsWith t (toL "py") then t.drop 2
    else t
  let body := afterTag.dropWhile isPySpace
  (pyFind body (toL "```")).map (fun j => body.take j)

/-- Search of `_FENCED_RE` (```` ```(?:python|py)?\s*([\s\S]*?)``` ````,
ignoring case): try each start position from the left. -/
def fencedSearch : L → Option L
  | [] => none
  | c :: cs =>
    match (if startsWithL (c :: cs) (toL "```") then mbppFenceTry (cs.drop 2) else none) with
    | some g => some g
    | none => fencedSearch cs

/-- Function `_extract_code` of scorers/mbpp.py: tag span first, then
fenced block, then the raw completion, each stripped; the empty
completion short-circuits to the empty string. -/
def mbppExtractCode (completion : L) : L :=
  if completion = [] then []
  else
    match beginDoneSearch completion with
    | some code => pyStrip code
    | none =>
      match fencedSearch completion with
      | some code => pyStrip code
      | none => pyStrip completion

/-- Argument of `_normalize_tests` in scorers/mbpp.py (Python `Any`):
None, a list of strings, a string, or a value of any other type. -/
inductive TestsInput
  | noneVal
  | listVal (l : List L)
  | strVal (s : L)
  | otherVal
deriving DecidableEq

/-- Function `_normalize_tests` of scorers/mbpp.py. -/
def normalizeTests : TestsInput → List L
  | .noneVal => []
  | .listVal l => (l.map pyRStrip).filter (fun x => x ≠ [])
  | .strVal s => ((pySplitlines s).filter (fun ln => pyStrip ln ≠ [])).map pyRStrip
  | .otherVal => []

/-- Function `_assemble_program` of scorers/mbpp.py: optional stripped
setup, then the stripped candidate, then the tests joined by newlines,
all joined by blank lines.  The setup section is kept only when the
setup is present, truthy and strips to a non-empty string. -/
def assembleProgram (setup : Option L) (candidateCode : L) (tests : List L) : L :=
  let setupParts : List L :=
    match setup with
    | some st => if pyStrip st = [] then [] else [pyStrip st]
    | none => []
  let parts := setupParts ++ [pyStrip candidateCode] ++
    (if tests = [] then [] else [List.intercalate (toL "\n") tests])
  List.intercalate (toL "\n\n") parts

/-- Function `_truncate` of scorers/mbpp.py. -/
def truncate (s : L) (n : Nat) : L :=
  if s.length ≤ n then s else s.take (n - 3) ++ toL "..."

/-- Pre-execution part of `mbpp_verify.score` (lines 108-135 of
scorers/mbpp.py): either the early INCORRECT Score for an empty
extracted candidate (the executor is not invoked), or the extracted
candidate paired with the assembled program handed to the executor. -/
def mbppScorePre (taskId : MetaVal) (setup : Option L) (testsIn : TestsInput)
    (completion : L) : Sum Score (L × L) :=
  let tests := normalizeTests testsIn
  let candidate := mbppExtractCode completion
  if candidate = [] then
    let program := assembleProgram setup [] tests
    Sum.inl ⟨false, [],
      toL "No candidate code found.\n\nThe following verification code was executed:\n\n```python\n" ++
        program ++ toL "\n```\n",
      some [(toL "task_id", taskId)]⟩
  else
    Sum.inr (candidate, assembleProgram setup candidate tests)

/-- Post-execution part of `mbpp_verify.score` (lines 148-173 of
scorers/mbpp.py). -/
def mbppScorePost (taskId : MetaVal) (prompt : L) (testsIn : TestsInput)
    (timeout : Nat) (candidate program : L) (result : ExecResult) : Score :=
  let passed := result.success
  let explanation :=
    toL "The following verification code was executed:\n\n```python\n" ++
    program ++ toL "\n```\n" ++
    (if passed then [] else toL "The submission was incorrect.\n\n" ++ result.stderr)
  ⟨passed, candidate, explanation,
    some [(toL "task_id", taskId),
          (toL "prompt", MetaVal.str (truncate prompt 400)),
          (toL "tests_count", MetaVal.nat (normalizeTests testsIn).length),
          (toL "timeout_s", MetaVal.nat timeout),
          (toL "exit_success", MetaVal.bool passed)]⟩

/-- Full `mbpp_verify.score`: extraction and assembly, the empty
candidate gate, then (when it passes) one executor invocation whose
behaviour is the parameter `b`. -/
def mbppScore (taskId : MetaVal) (prompt : L) (setup : Option L)
    (testsIn : TestsInput) (completion : L) (timeout : Nat)
    (b : ExecBehavior) : Score :=
  match mbppScorePre taskId setup testsIn completion with
  | Sum.inl s => s
  | Sum.inr (candidate, program) =>
    mbppScorePost taskId prompt testsIn timeout candidate program (mbppExecOutcome b)

/-! General lemmas about the Python string primitives. -/

/-- Every list starts with itself. -/
lemma startsWithL_refl (l : L) : startsWithL l l = true := by
  induction l with
  | nil => rfl
  | cons c cs ih => simp [startsWithL, ih]

/-- A find on a text that starts with the needle returns index zero. -/
lemma pyFind_of_startsWith {s t : L} (h : startsWithL s t = true) :
    pyFind s t = some 0 := by
  cases s with
  | nil => simp [pyFind, h]
  | cons c cs => simp [pyFind, h]

/-- A needle found in `b` is found in `a ++ b`. -/
lemma pyFind_isSome_append (a b t : L) (h : (pyFind b t).isSome = true) :
    (pyFind (a ++ b) t).isSome = true := by
  induction a with
  | nil => simpa using h
  | cons c a ih =>
    show (pyFind (c :: (a ++ b)) t).isSome = true
    by_cases hs : startsWithL (c :: (a ++ b)) t = true
    · simp [pyFind, hs]
    · simp only [Bool.not_eq_true] at hs
      cases hp : pyFind (a ++ b) t with
      | none => rw [hp] at ih; exact absurd ih (by simp)
      | some i => simp [pyFind, hs, hp]

/-- Containment is preserved by prepending text. -/
lemma pyContains_append_right (a b t : L) (h : pyContains b t = true) :
    pyContains (a ++ b) t = true :=
  pyFind_isSome_append a b t h

/-- Every list contains itself. -/
lemma pyContains_refl (t : L) : pyContains t t = true := by
  unfold pyContains
  rw [pyFind_of_startsWith (startsWithL_refl t)]
  rfl

/-- A prefix of `a` is a prefix of `a ++ b`. -/
lemma startsWithL_append (a b t : L) (h : startsWithL a t = true) :
    startsWithL (a ++ b) t = true := by
  induction a generalizing t with
  | nil =>
    cases t with
    | nil => simp [startsWithL]
    | cons d ds => exact absurd h (by simp [startsWithL])
  | cons c cs ih =>
    cases t with
    | nil => simp [startsWithL]
    | cons d ds =>
      simp only [startsWithL, Bool.and_eq_true] at h ⊢
      exact ⟨h.1, ih ds h.2⟩

/-- A text containing its own prefix. -/
lemma pyContains_of_startsWith {s t : L} (h : startsWithL s t = true) :
    pyContains s t = true := by
  unfold pyContains
  rw [pyFind_of_startsWith h]
  rfl

/-- The formatted explanation of the CRUXEval scorer contains whatever
its note contains, the note being its final append operand. -/
lemma pyContains_fmtExpl (code refIn refOut cand note t : L)
    (h : pyContains note t = true) :
    pyContains (fmtExpl code refIn refOut cand note) t = true := by
  unfold fmtExpl
  repeat' apply pyContains_append_right
  exact h

/-- A Score produced by a left branch of `cruxevalPre` carries no
metadata. -/
lemma cruxevalPre_inl_metadata (mode code refIn refOut cand : L) (s : Score)
    (h : cruxevalPre mode code refIn refOut cand = Sum.inl s) :
    s.metadata = none := by
  unfold cruxevalPre at h
  split_ifs at h <;>
    first
    | exact Sum.noConfusion h
    | (injection h with h2; rw [← h2]; rfl)

/-! Claim theorems. -/

/-- C1: the spec (scenario 3, input mode) requires candidate `f(3)` with
reference output `6` to verify as Correct.  In the code, `_first_f_call`
builds `"f(" + m.group(1).strip()` and drops the close parenthesis, so
the completion `f(3)` is extracted as `f(3` and the executed program
asserts `assert 6 == f(3` — an unterminated call that is a Python
syntax error, so the assertion can never pass and the verdict is
Incorrect.  This theorem evaluates the code at the failing input: the
extracted candidate lacks the close parenthesis, and the program handed
to the executor contains the malformed assert line. -/
theorem c1_first_f_call_drops_close_paren :
    extractCandidate (toL "f(3)") (toL "input") (toL "direct") = some (toL "f(3") ∧
    toL "f(3" ≠ toL "f(3)" ∧
    cruxevalPre (toL "input") (toL "def f(n): return n * 2") (toL "3") (toL "6")
        (toL "f(3") =
      Sum.inr (toL "def f(n): return n * 2\nassert 6 == f(3\n") := by
  refine ⟨by decide, by decide, by decide⟩

/-- C2: the spec says extraction never yields `None` and raises nothing,
in particular for a full assertion in input mode with no f-call on
either side.  In the code, that very case returns
`lhs if "f(" in lhs else _first_f_call(s)` with `_first_f_call`
returning `None`, so `extract_candidate` returns `None`; the scorer
then evaluates `"f(" not in None` and an uncaught `TypeError`
propagates (modelled as `Except.error`). -/
theorem c2_extract_candidate_returns_none :
    extractCandidate (toL "assert 1 == 2") (toL "input") (toL "direct") = none ∧
    cruxevalScore (toL "input") (toL "direct") (toL "def f(n): return n")
        (toL "1") (toL "2") (toL "assert 1 == 2")
        (ExecBehavior.returns ⟨true, 0, [], []⟩) = Except.error () := by
  refine ⟨by decide, by rfl⟩

/-- C3: the spec says the explanation always shows the exact assembled
program.  In input mode the executed assertion compares the reference
output (`assert 6 == f(3)` below), but `_fmt_expl` shows
`f(<ref_input>)` on the left whenever `ref_input` is non-empty, so the
explanation displays `assert f(3) == f(3)`, a line that was never
executed, and does not contain the executed assert line. -/
theorem c3_explanation_differs_from_executed_program :
    extractCandidate (toL "assert f(3) == 6") (toL "input") (toL "direct") =
      some (toL "f(3)") ∧
    cruxevalPre (toL "input") (toL "def f(n): return n * 2") (toL "3") (toL "6")
        (toL "f(3)") =
      Sum.inr (toL "def f(n): return n * 2\nassert 6 == f(3)\n") ∧
    pyContains
      (cruxevalScoreWithCandidate (toL "input") (toL "def f(n): return n * 2")
          (toL "3") (toL "6") (toL "f(3)")
          (ExecBehavior.returns ⟨true, 0, [], []⟩)).explanation
      (toL "assert 6 == f(3)") = false ∧
    pyContains
      (cruxevalScoreWithCandidate (toL "input") (toL "def f(n): return n * 2")
          (toL "3") (toL "6") (toL "f(3)")
          (ExecBehavior.returns ⟨true, 0, [], []⟩)).explanation
      (toL "assert f(3) == f(3)") = true := by
  refine ⟨by decide, by decide, by decide, by decide⟩

/-- C4, counterexample: the claim says that in output mode a
non-assertion text with equality operators yields the text after the
last one; on `1 == 2 == 3` that would be `3`, but the code splits once
on the first operator (`s.split("==", 1)[1]`) and returns `2 == 3`. -/
theorem c4_output_split_counterexample :
    extractCandidate (toL "1 == 2 == 3") (toL "output") (toL "direct") =
      some (toL "2 == 3") ∧
    toL "2 == 3" ≠ toL "3" := by
  refine ⟨by decide, by decide⟩

/-- C4, amended: in output mode, when the normalized extracted text is
not a full assertion statement but contains at least one equality
operator, the candidate is the stripped text after the first equality
operator; when it contains none, the candidate is the whole string. -/
theorem c4_output_side_selection_amended (s : L)
    (h : isFullAssertion s = false) :
    (pyContains s (toL "==") = true →
      ∃ i, pyFind s (toL "==") = some i ∧
        selectCandidate s (toL "output") = some (pyStrip (s.drop (i + 2)))) ∧
    (pyContains s (toL "==") = false →
      selectCandidate s (toL "output") = some s) := by
  constructor
  · intro hc
    have hsw : startsWithL s (toL "assert ") = false := by
      unfold isFullAssertion at h
      rw [hc] at h
      simpa using h
    obtain ⟨i, hi⟩ := Option.isSome_iff_exists.mp hc
    exact ⟨i, hi, by simp [selectCandidate, hsw, fallbackSelect, hi]⟩
  · intro hc
    have h2 : pyFind s (toL "==") = none := by
      cases hf : pyFind s (toL "==") with
      | none => rfl
      | some i => rw [pyContains, hf] at hc; exact absurd hc (by simp)
    cases hsw : startsWithL s (toL "assert ") with
    | false => simp [selectCandidate, hsw, fallbackSelect, h2]
    | true =>
      have hdrop : pyFind (s.drop 7) (toL "==") = none := by
        cases hf : pyFind (s.drop 7) (toL "==") with
        | none => rfl
        | some j =>
          exfalso
          have hsome : (pyFind s (toL "==")).isSome = true := by
            have := pyFind_isSome_append (s.take 7) (s.drop 7) (toL "==")
              (by rw [hf]; rfl)
            rwa [List.take_append_drop] at this
          rw [h2] at hsome
          exact absurd hsome (by simp)
      have hsplit : pySplit (s.drop 7) (toL "==") = [s.drop 7] := by
        unfold pySplit pySplitGo
        rw [hdrop]
      simp [selectCandidate, hsw, hsplit, fallbackSelect, h2]

/-- Witness for the amended C4 at the concrete text `1 == 2 == 3`. -/
theorem c4_witness :
    isFullAssertion (toL "1 == 2 == 3") = false ∧
    ((pyContains (toL "1 == 2 == 3") (toL "==") = true →
      ∃ i, pyFind (toL "1 == 2 == 3") (toL "==") = some i ∧
        selectCandidate (toL "1 == 2 == 3") (toL "output") =
          some (pyStrip ((toL "1 == 2 == 3").drop (i + 2)))) ∧
     (pyContains (toL "1 == 2 == 3") (toL "==") = false →
      selectCandidate (toL "1 == 2 == 3") (toL "output") =
        some (toL "1 == 2 == 3"))) :=
  ⟨by decide, c4_output_side_selection_amended (toL "1 == 2 == 3") (by decide)⟩

/-- C5, counterexample: the claim says output mode rejects exactly the
candidates that are themselves the reference call, and that every other
candidate reaches execution.  The code tests substring containment, so
the candidate `f(3)+1`, which is not itself the call `f(3)`, is still
structurally rejected (Incorrect without execution, even under an
executor that would report success). -/
theorem c5_output_gate_counterexample :
    (cruxevalPre (toL "output") (toL "def f(n): return n * 2") (toL "3")
        (toL "6") (toL "f(3)+1")).isLeft = true ∧
    toL "f(3)+1" ≠ toL "f(3)" ∧
    (cruxevalScoreWithCandidate (toL "output") (toL "def f(n): return n * 2")
        (toL "3") (toL "6") (toL "f(3)+1")
        (ExecBehavior.returns ⟨true, 0, [], []⟩)).value = false := by
  refine ⟨by decide, by decide, by decide⟩

/-- C5, amended: in output mode the verification is structurally
rejected (no execution) exactly when the candidate contains
`f(<reference_input>)` as a substring; every candidate without that
substring proceeds to execution. -/
theorem c5_output_gate_amended (code refIn refOut candidate : L) :
    (cruxevalPre (toL "output") code refIn refOut candidate).isLeft = true ↔
      pyContains candidate (toL "f(" ++ refIn ++ toL ")") = true := by
  unfold cruxevalPre
  rw [if_neg (by decide : ¬ toL "output" = toL "input"), if_pos rfl]
  cases h : pyContains candidate (toL "f(" ++ refIn ++ toL ")") <;> simp [h]

/-- C6, counterexample: the claim says extraction returns exactly the
trimmed contents of a well-formed answer span.  The code keeps
normalizing the span: for the span `assert f(1) == 2` in output mode it
returns the right-hand side `2`, not the span contents. -/
theorem c6_answer_span_counterexample :
    between (pyStrip (toL "[ANSWER]assert f(1) == 2[/ANSWER]"))
        ANSWER_OPEN ANSWER_CLOSE = some (toL "assert f(1) == 2") ∧
    extractCandidate (toL "[ANSWER]assert f(1) == 2[/ANSWER]")
        (toL "output") (toL "cot") = some (toL "2") ∧
    toL "2" ≠ toL "assert f(1) == 2" := by
  refine ⟨by decide, by decide, by decide⟩

/-- C6, amended: for every completion containing a well-formed delimited
answer span, extraction takes exactly the trimmed contents of that span
— regardless of any reasoning text preceding it, and instead of the
last-line fallback — and applies the normalization steps (fence
stripping, assert splitting, side selection) to that span alone. -/
theorem c6_answer_span_precedence_amended
    (completion mode variant inside : L)
    (h : between (pyStrip completion) ANSWER_OPEN ANSWER_CLOSE = some inside) :
    extractCandidate completion mode variant = normalizeCandidate inside mode := by
  simp only [extractCandidate]
  rw [h]

/-- Witness for the amended C6: a span preceded by reasoning text. -/
theorem c6_witness :
    between (pyStrip (toL "after thought\n[ANSWER]x[/ANSWER]"))
        ANSWER_OPEN ANSWER_CLOSE = some (toL "x") ∧
    extractCandidate (toL "after thought\n[ANSWER]x[/ANSWER]")
        (toL "output") (toL "cot") = normalizeCandidate (toL "x") (toL "output") :=
  ⟨by decide,
   c6_answer_span_precedence_amended (toL "after thought\n[ANSWER]x[/ANSWER]")
     (toL "output") (toL "cot") (toL "x") (by decide)⟩

/-- C7: in input-prediction mode, every string candidate without the
call-shaped substring `f(` — the empty candidate included — is rejected
before execution: the scorer returns an early INCORRECT verdict (left
branch, so the executor is never invoked) whose explanation contains
the note citing the missing call. -/
theorem c7_input_gate_missing_call (code refIn refOut candidate : L)
    (h : pyContains candidate (toL "f(") = false) :
    ∃ s, cruxevalPre (toL "input") code refIn refOut candidate = Sum.inl s ∧
      s.value = false ∧ pyContains s.explanation noteMissingCall = true := by
  refine ⟨incorrectScore (fmtExpl code refIn refOut candidate noteMissingCall),
    ?_, rfl, ?_⟩
  · unfold cruxevalPre
    rw [if_pos rfl, if_neg (by simp [h])]
  · exact pyContains_fmtExpl code refIn refOut candidate noteMissingCall
      noteMissingCall (pyContains_refl noteMissingCall)

/-- Witness for C7 at the empty candidate. -/
theorem c7_witness :
    pyContains [] (toL "f(") = false ∧
    (∃ s, cruxevalPre (toL "input") (toL "def f(n): return n") (toL "1")
        (toL "2") [] = Sum.inl s ∧
      s.value = false ∧ pyContains s.explanation noteMissingCall = true) :=
  ⟨by decide,
   c7_input_gate_missing_call (toL "def f(n): return n") (toL "1") (toL "2")
     [] (by decide)⟩

/-- C8, counterexample: the claim says a timed-out verification yields
Incorrect with a fixed timed-out note in the failure detail.  The
CRUXEval scorer catches the timeout with a bare `except:` that
substitutes stderr `Error arose.`, so the verdict is Incorrect but its
explanation contains no `timed out` text at all. -/
theorem c8_timeout_note_counterexample :
    (cruxevalScoreWithCandidate (toL "input") (toL "def f(x): return x")
        (toL "1") (toL "2") (toL "f(1)") ExecBehavior.timeoutErr).value = false ∧
    pyContains
      (cruxevalScoreWithCandidate (toL "input") (toL "def f(x): return x")
          (toL "1") (toL "2") (toL "f(1)") ExecBehavior.timeoutErr).explanation
      (toL "timed out") = false ∧
    pyContains
      (cruxevalScoreWithCandidate (toL "input") (toL "def f(x): return x")
          (toL "1") (toL "2") (toL "f(1)") ExecBehavior.timeoutErr).explanation
      (toL "Error arose.") = true := by
  refine ⟨by decide, by decide, by decide⟩

/-- C8, amended: a timeout raised by the executor never propagates (both
scorers recover it into a non-success result, so scoring is total) and
the verdict is Incorrect; the failure detail carries the fixed note
`Verification timed out.` in the MBPP scorer, while the CRUXEval scorer
(whose bare exception handler does not distinguish the timeout) carries
the fixed note `Error arose.` instead of a timed-out note. -/
theorem c8_timeout_recovery_amended :
    (∀ code refIn refOut candidate : L,
      (cruxevalPost code refIn refOut candidate
          (cruxevalExecOutcome ExecBehavior.timeoutErr)).value = false ∧
      pyContains
        (cruxevalPost code refIn refOut candidate
            (cruxevalExecOutcome ExecBehavior.timeoutErr)).explanation
        (toL "Error arose.") = true) ∧
    (∀ (taskId : MetaVal) (prompt : L) (testsIn : TestsInput) (timeout : Nat)
        (candidate program : L),
      (mbppScorePost taskId prompt testsIn timeout candidate program
          (mbppExecOutcome ExecBehavior.timeoutErr)).value = false ∧
      pyContains
        (mbppScorePost taskId prompt testsIn timeout candidate program
            (mbppExecOutcome ExecBehavior.timeoutErr)).explanation
        (toL "Verification timed out.") = true) := by
  constructor
  · intro code refIn refOut candidate
    refine ⟨rfl, ?_⟩
    show pyContains
      (cruxevalPost code refIn refOut candidate
        ⟨false, 1, [], toL "Error arose."⟩).explanation (toL "Error arose.") = true
    unfold cruxevalPost incorrectScore
    simp only [Bool.false_eq_true, if_false]
    exact pyContains_fmtExpl _ _ _ _ _ _ (by decide)
  · intro taskId prompt testsIn timeout candidate program
    refine ⟨rfl, ?_⟩
    show pyContains
      (mbppScorePost taskId prompt testsIn timeout candidate program
        ⟨false, 1, [], toL "Verification timed out."⟩).explanation
      (toL "Verification timed out.") = true
    unfold mbppScorePost
    simp only [Bool.false_eq_true, if_false]
    repeat' apply pyContains_append_right
    decide

/-- C9, counterexample: the claim says every returned verdict carries
metadata with at least mode, timeout_seconds and exited_zero.  The
CRUXEval scorer never passes a metadata argument to any Score it
builds, so even a successful verification returns a verdict with no
metadata at all. -/
theorem c9_metadata_counterexample :
    (cruxevalScoreWithCandidate (toL "input") (toL "def f(n): return n * 2")
        (toL "3") (toL "6") (toL "f(3)")
        (ExecBehavior.returns ⟨true, 0, [], []⟩)).metadata = none := by
  decide

/-- C9, amended: verdicts of the CRUXEval scorer carry no metadata on
any path or mode; verdicts of the MBPP scorer carry metadata with only
task_id on the empty-candidate path, and with task_id, the truncated
prompt, tests_count, timeout_s and exit_success on the executed path;
no verdict carries mode, timeout_seconds, exited_zero or sentinel_seen
fields. -/
theorem c9_metadata_amended :
    (∀ mode code refIn refOut candidate b,
      (cruxevalScoreWithCandidate mode code refIn refOut candidate b).metadata =
        none) ∧
    (∀ (taskId : MetaVal) (setup : Option L) (testsIn : TestsInput)
        (completion : L),
      (match mbppScorePre taskId setup testsIn completion with
       | Sum.inl s => s.metadata = some [(toL "task_id", taskId)]
       | Sum.inr _ => True)) ∧
    (∀ (taskId : MetaVal) (prompt : L) (testsIn : TestsInput) (timeout : Nat)
        (candidate program : L) (r : ExecResult),
      (mbppScorePost taskId prompt testsIn timeout candidate program r).metadata =
        some [(toL "task_id", taskId),
              (toL "prompt", MetaVal.str (truncate prompt 400)),
              (toL "tests_count", MetaVal.nat (normalizeTests testsIn).length),
              (toL "timeout_s", MetaVal.nat timeout),
              (toL "exit_success", MetaVal.bool r.success)]) := by
  refine ⟨?_, ?_, ?_⟩
  · intro mode code refIn refOut candidate b
    unfold cruxevalScoreWithCandidate
    cases h : cruxevalPre mode code refIn refOut candidate with
    | inl s => exact cruxevalPre_inl_metadata mode code refIn refOut candidate s h
    | inr p =>
      cases hs : (cruxevalExecOutcome b).success <;>
        simp [cruxevalPost, hs, incorrectScore]
  · intro taskId setup testsIn completion
    unfold mbppScorePre
    by_cases h : mbppExtractCode completion = [] <;> simp [h]
  · intro taskId prompt testsIn timeout candidate program r
    rfl

/-- C10: in the MBPP (test-suite) scorer, every completion whose
extracted candidate is empty is rejected before execution: the scorer
returns an early INCORRECT verdict (left branch, so the executor is
never invoked) whose explanation starts by stating that no candidate
code was found. -/
theorem c10_mbpp_empty_candidate_gate (taskId : MetaVal) (setup : Option L)
    (testsIn : TestsInput) (completion : L)
    (h : mbppExtractCode completion = []) :
    ∃ s, mbppScorePre taskId setup testsIn completion = Sum.inl s ∧
      s.value = false ∧
      startsWithL s.explanation (toL "No candidate code found.") = true := by
  refine ⟨⟨false, [],
    toL "No candidate code found.\n\nThe following verification code was executed:\n\n```python\n" ++
      assembleProgram setup [] (normalizeTests testsIn) ++ toL "\n```\n",
    some [(toL "task_id", taskId)]⟩, ?_, rfl, ?_⟩
  · unfold mbppScorePre
    rw [h]
    rfl
  · exact startsWithL_append _ _ _ (startsWithL_append _ _ _ (by decide))

/-- Witness for C10 at the empty completion. -/
theorem c10_witness :
    mbppExtractCode [] = [] ∧
    (∃ s, mbppScorePre (MetaVal.nat 1) none TestsInput.noneVal [] = Sum.inl s ∧
      s.value = false ∧
      startsWithL s.explanation (toL "No candidate code found.") = true) :=
  ⟨by decide,
   c10_mbpp_empty_candidate_gate (MetaVal.nat 1) none TestsInput.noneVal []
     (by decide)⟩

end OpenBench
